import Mathlib

set_option maxRecDepth 10000

/-!
Verification of the CKAN MCP server core (`mcp_ckan_server.py`): the
request/cache client, the standardized response envelope with error
classification, and the derived analysis operations (faceted search,
relatedness, quality scoring, analytics, resource preview).

Python values that flow through the client are JSON-decoded data; we model
them with the `Json` inductive below, where `Json.null` plays the role of
Python's `None`.  Fallible Python code (attribute errors, key errors,
raised exceptions) is modelled with `Except String`.  Rational numbers
stand in for Python numerics; all score arithmetic in the source is exact
in the rationals.
-/

deriving instance DecidableEq for Except

namespace Ckan

/-- JSON-decoded Python value.  Objects are association lists in insertion
order, mirroring Python 3.7+ dicts (keys unique by construction). -/
inductive Json where
  | null : Json
  | bool (b : Bool) : Json
  | num (q : ℚ) : Json
  | str (s : String) : Json
  | arr (elems : List Json) : Json
  | obj (kvs : List (String × Json)) : Json
deriving Inhabited

mutual

/-- Structural equality test; the deriving handler cannot cross the nested
`List` positions, so the recursion is spelt out. -/
def Json.beqJ : Json → Json → Bool
  | .null, .null => true
  | .bool a, .bool b => a == b
  | .num a, .num b => a == b
  | .str a, .str b => a == b
  | .arr a, .arr b => Json.beqListJ a b
  | .obj a, .obj b => Json.beqKVs a b
  | _, _ => false

def Json.beqListJ : List Json → List Json → Bool
  | u :: us, w :: ws => Json.beqJ u w && Json.beqListJ us ws
  | [], [] => true
  | _, _ => false

def Json.beqKVs : List (String × Json) → List (String × Json) → Bool
  | (k, v) :: restA, (l, w) :: restB => k == l && Json.beqJ v w && Json.beqKVs restA restB
  | [], [] => true
  | _, _ => false

end

mutual

theorem Json.beqJ_iff_eq : ∀ a b : Json, Json.beqJ a b = true ↔ a = b
  | .null, b => by cases b <;> simp [Json.beqJ]
  | .bool x, b => by cases b <;> simp [Json.beqJ]
  | .num q, b => by cases b <;> simp [Json.beqJ]
  | .str s, b => by cases b <;> simp [Json.beqJ]
  | .arr elems, b => by
    cases b <;> simp only [Json.beqJ] <;> simp
    case arr more => rw [Json.beqListJ_iff_eq elems more]
  | .obj kvs, b => by
    cases b <;> simp only [Json.beqJ] <;> simp
    case obj more => rw [Json.beqKVs_iff_eq kvs more]

theorem Json.beqListJ_iff_eq : ∀ xs ys : List Json, Json.beqListJ xs ys = true ↔ xs = ys
  | [], ys => by cases ys <;> simp [Json.beqListJ]
  | x :: xs, [] => by simp [Json.beqListJ]
  | u :: moreA, w :: moreB => by
    rw [show Json.beqListJ (u :: moreA) (w :: moreB) = (Json.beqJ u w && Json.beqListJ moreA moreB)
      from rfl]
    simp [Json.beqJ_iff_eq u w, Json.beqListJ_iff_eq moreA moreB]

theorem Json.beqKVs_iff_eq : ∀ xs ys : List (String × Json), Json.beqKVs xs ys = true ↔ xs = ys
  | [], ys => by cases ys <;> simp [Json.beqKVs]
  | p :: xs, [] => by simp [Json.beqKVs]
  | (ka, va) :: moreA, (kb, vb) :: moreB => by
    rw [show Json.beqKVs ((ka, va) :: moreA) ((kb, vb) :: moreB) =
      (ka == kb && Json.beqJ va vb && Json.beqKVs moreA moreB) from rfl]
    simp [Json.beqJ_iff_eq va vb, Json.beqKVs_iff_eq moreA moreB, Prod.ext_iff, and_assoc]

end

instance : DecidableEq Json := fun a b => decidable_of_iff _ (Json.beqJ_iff_eq a b)

/-- Python truthiness (`bool(x)`) of a JSON-decoded value: `None`, `False`,
zero, and empty containers/strings are falsy. -/
def Json.truthy : Json → Bool
  | .null => false
  | .bool b => b
  | .num q => q != 0
  | .str s => s != ""
  | .arr elems => !elems.isEmpty
  | .obj kvs => !kvs.isEmpty

/-- `d.get(k, default)` on an association list known to be a dict. -/
def objGetD (kvs : List (String × Json)) (k : String) (d : Json) : Json :=
  (kvs.lookup k).getD d

/-- View a value as a dict; any Python attribute access such as `.get`
raises `AttributeError` on non-dicts. -/
def asObj : Json → Except String (List (String × Json))
  | .obj kvs => .ok kvs
  | _ => .error "AttributeError"

/-- `j.get(k, d)`: attribute error unless `j` is a dict. -/
def pyGet (j : Json) (k : String) (d : Json) : Except String Json := do
  let kvs ← asObj j
  pure (objGetD kvs k d)

/-- `j[k]` subscription on a value: `KeyError` when the key is missing,
type error on non-dicts (the source only subscripts dicts by string). -/
def pyIndex (j : Json) (k : String) : Except String Json :=
  match j with
  | .obj kvs =>
    match kvs.lookup k with
    | some v => .ok v
    | none => .error "KeyError"
  | _ => .error "TypeError"

/-- Python iteration `for x in j`: lists yield elements, strings yield
one-character strings, dicts yield their keys, other values raise. -/
def pyIter : Json → Except String (List Json)
  | .arr elems => .ok elems
  | .str s => .ok (s.toList.map fun c => .str c.toString)
  | .obj kvs => .ok (kvs.map fun p => .str p.1)
  | _ => .error "TypeError: not iterable"

/-- `len(j)` for the sized Python values appearing in the source. -/
def pyLen : Json → Except String Nat
  | .arr elems => .ok elems.length
  | .str s => .ok s.length
  | .obj kvs => .ok kvs.length
  | _ => .error "TypeError: no len"

/-- `s.upper()`; raises on non-strings. -/
def pyUpper : Json → Except String String
  | .str s => .ok s.toUpper
  | _ => .error "AttributeError"

/-- Decimal rendering of a rational as Python would print the numerics the
source actually produces (integers); non-integers are rendered as an exact
fraction, a case no claim exercises. -/
def ratStr (q : ℚ) : String :=
  if q.den = 1 then toString q.num else toString q.num ++ "/" ++ toString q.den

/-- `str(x)` as used in f-string interpolation for the values the source
formats: strings interpolate verbatim, `None`/booleans/numbers print the
Python way; container rendering is a simplified repr (not load-bearing,
no claim inspects it). -/
def pyFormat : Json → String
  | .null => "None"
  | .bool b => if b then "True" else "False"
  | .num q => ratStr q
  | .str s => s
  | .arr _ => "[...]"
  | .obj _ => "\x7b...\x7d"

/-- First-match substring test, Python's `pat in s`. -/
def strContains (s pat : String) : Bool :=
  s.toList.tails.any fun t => pat.toList.isPrefixOf t

/-- Python dict assignment `d[k] = v`: replaces the value in place if the
key exists, appends otherwise (insertion-order semantics). -/
def dictSet : List (String × α) → String → α → List (String × α)
  | [], k, v => [(k, v)]
  | p :: t, k, v => if p.1 = k then (k, v) :: t else p :: dictSet t k v

/-- Key lookup inside a JSON object; `none` on other values. -/
def jsonLookup (j : Json) (k : String) : Option Json :=
  match j with
  | .obj kvs => kvs.lookup k
  | _ => none

/-- `List.mapM` specialised to `Except` by plain recursion, mirroring a
Python loop that can raise at each element. -/
def mapExcept (f : α → Except String β) : List α → Except String (List β)
  | [] => .ok []
  | a :: t => do
    let b ← f a
    let bs ← mapExcept f t
    pure (b :: bs)

/-!
## MD5 (RFC 1321)

`CKANAPIClient._get_cache_key` hashes its fingerprint string with
`hashlib.md5(...).hexdigest()`.  The digest is reproduced here over `Nat`
with explicit reduction modulo `2^32`, so cache keys in the model are the
very strings the Python code computes.  No theorem reasons about the
internals of the compression function; key equalities follow from equality
of the fingerprint strings by congruence.
-/

/-- UTF-8 encoding of one code point as a byte list. -/
def utf8BytesOfChar (c : Char) : List Nat :=
  let n := c.toNat
  if n < 0x80 then [n]
  else if n < 0x800 then [0xC0 + n / 0x40, 0x80 + n % 0x40]
  else if n < 0x10000 then
    [0xE0 + n / 0x1000, 0x80 + (n / 0x40) % 0x40, 0x80 + n % 0x40]
  else
    [0xF0 + n / 0x40000, 0x80 + (n / 0x1000) % 0x40, 0x80 + (n / 0x40) % 0x40, 0x80 + n % 0x40]

/-- `s.encode()`: the UTF-8 bytes of a string. -/
def utf8Bytes (s : String) : List Nat :=
  (s.toList.map utf8BytesOfChar).flatten

/-- Per-operation left-rotation amounts. -/
def md5Shifts : List Nat :=
  [7, 12, 17, 22, 7, 12, 17, 22, 7, 12, 17, 22, 7, 12, 17, 22,
   5, 9, 14, 20, 5, 9, 14, 20, 5, 9, 14, 20, 5, 9, 14, 20,
   4, 11, 16, 23, 4, 11, 16, 23, 4, 11, 16, 23, 4, 11, 16, 23,
   6, 10, 15, 21, 6, 10, 15, 21, 6, 10, 15, 21, 6, 10, 15, 21]

/-- Sine-derived constant table `K`. -/
def md5Table : List Nat :=
  [0xd76aa478, 0xe8c7b756, 0x242070db, 0xc1bdceee,
   0xf57c0faf, 0x4787c62a, 0xa8304613, 0xfd469501,
   0x698098d8, 0x8b44f7af, 0xffff5bb1, 0x895cd7be,
   0x6b901122, 0xfd987193, 0xa679438e, 0x49b40821,
   0xf61e2562, 0xc040b340, 0x265e5a51, 0xe9b6c7aa,
   0xd62f105d, 0x02441453, 0xd8a1e681, 0xe7d3fbc8,
   0x21e1cde6, 0xc33707d6, 0xf4d50d87, 0x455a14ed,
   0xa9e3e905, 0xfcefa3f8, 0x676f02d9, 0x8d2a4c8a,
   0xfffa3942, 0x8771f681, 0x6d9d6122, 0xfde5380c,
   0xa4beea44, 0x4bdecfa9, 0xf6bb4b60, 0xbebfbc70,
   0x289b7ec6, 0xeaa127fa, 0xd4ef3085, 0x04881d05,
   0xd9d4d039, 0xe6db99e5, 0x1fa27cf8, 0xc4ac5665,
   0xf4292244, 0x432aff97, 0xab9423a7, 0xfc93a039,
   0x655b59c3, 0x8f0ccc92, 0xffeff47d, 0x85845dd1,
   0x6fa87e4f, 0xfe2ce6e0, 0xa3014314, 0x4e0811a1,
   0xf7537e82, 0xbd3af235, 0x2ad7d2bb, 0xeb86d391]

/-- 32-bit left rotation on a word already reduced below `2^32`. -/
def rotl32 (x c : Nat) : Nat :=
  ((x <<< c) ||| (x >>> (32 - c))) % 4294967296

/-- Running state of the digest: four 32-bit words. -/
structure MD5State where
  a : Nat
  b : Nat
  c : Nat
  d : Nat
deriving DecidableEq

/-- Round function applied at operation `i`. -/
def md5Mix (i b c d : Nat) : Nat :=
  if i < 16 then (b &&& c) ||| ((b ^^^ 0xFFFFFFFF) &&& d)
  else if i < 32 then (d &&& b) ||| ((d ^^^ 0xFFFFFFFF) &&& c)
  else if i < 48 then b ^^^ c ^^^ d
  else c ^^^ (b ||| (d ^^^ 0xFFFFFFFF))

/-- Message-word index used at operation `i`. -/
def md5MsgIndex (i : Nat) : Nat :=
  if i < 16 then i
  else if i < 32 then (5 * i + 1) % 16
  else if i < 48 then (3 * i + 5) % 16
  else (7 * i) % 16

/-- Little-endian 32-bit word `j` of a 64-byte chunk. -/
def chunkWord (chunk : List Nat) (j : Nat) : Nat :=
  chunk.getD (4 * j) 0 + 256 * chunk.getD (4 * j + 1) 0 +
    65536 * chunk.getD (4 * j + 2) 0 + 16777216 * chunk.getD (4 * j + 3) 0

/-- One of the 64 operations of the compression function. -/
def md5Op (chunk : List Nat) (st : MD5State) (i : Nat) : MD5State :=
  let f := (md5Mix i st.b st.c st.d + st.a + md5Table.getD i 0 +
    chunkWord chunk (md5MsgIndex i)) % 4294967296
  ⟨st.d, (st.b + rotl32 f (md5Shifts.getD i 0)) % 4294967296, st.b, st.c⟩

/-- Compress one 64-byte chunk into the running state. -/
def md5Chunk (st : MD5State) (chunk : List Nat) : MD5State :=
  let r := (List.range 64).foldl (md5Op chunk) st
  ⟨(st.a + r.a) % 4294967296, (st.b + r.b) % 4294967296,
   (st.c + r.c) % 4294967296, (st.d + r.d) % 4294967296⟩

/-- Merkle–Damgård padding: `0x80`, zeros to 56 mod 64, then the bit length
as eight little-endian bytes. -/
def md5Pad (msg : List Nat) : List Nat :=
  let bitLen := (8 * msg.length) % 18446744073709551616
  let zeros := (119 - msg.length % 64) % 64
  msg ++ [0x80] ++ List.replicate zeros 0 ++
    ((List.range 8).map fun i => (bitLen >>> (8 * i)) % 256)

/-- Split a byte list into 64-byte chunks; the fuel argument (any bound on
the number of chunks, e.g. the length) keeps the recursion structural so
that the kernel can evaluate digests. -/
def chunks64Fuel : Nat → List Nat → List (List Nat)
  | 0, _ => []
  | _, [] => []
  | fuel + 1, a :: rest => ((a :: rest).take 64) :: chunks64Fuel fuel ((a :: rest).drop 64)

/-- Split a byte list into 64-byte chunks. -/
def chunks64 (l : List Nat) : List (List Nat) :=
  chunks64Fuel l.length l

/-- Lower-case hex digit. -/
def hexDigit (n : Nat) : Char :=
  if n < 10 then Char.ofNat (48 + n) else Char.ofNat (87 + n)

/-- Two-digit lower-case hex of a byte. -/
def byteHex (b : Nat) : String :=
  String.mk [hexDigit (b / 16), hexDigit (b % 16)]

/-- `hashlib.md5(s.encode()).hexdigest()`. -/
def md5Hex (s : String) : String :=
  let st := (chunks64 (md5Pad (utf8Bytes s))).foldl md5Chunk
    ⟨0x67452301, 0xefcdab89, 0x98badcfe, 0x10325476⟩
  String.join ([st.a, st.b, st.c, st.d].map fun w =>
    String.join ((List.range 4).map fun i => byteHex ((w >>> (8 * i)) % 256)))

/-!
## `json.dumps(data, sort_keys=True)`

Used by `_get_cache_key` to fingerprint a request body.  Keys of every
object are sorted (Python compares strings by code point; `String`'s
linear order in Mathlib is the same lexicographic order), then the value
is rendered with the default separators `", "` and `": "` and
`ensure_ascii` escaping.
-/

/-- Ordering of dict items by key, as `sorted` uses under `sort_keys`. -/
def keyLE (p q : String × Json) : Prop := p.1 ≤ q.1

instance : DecidableRel keyLE := fun p q => inferInstanceAs (Decidable (p.1 ≤ q.1))

/-- Sort dict items by key (insertion sort; on the duplicate-free key lists
Python dicts produce, any sort yields the same list). -/
def sortKVs (kvs : List (String × Json)) : List (String × Json) :=
  List.insertionSort keyLE kvs

mutual

/-- Recursively put every object's items in key order, the shape
`sort_keys=True` serializes. -/
def sortJson : Json → Json
  | .null => .null
  | .bool b => .bool b
  | .num q => .num q
  | .str s => .str s
  | .arr elems => .arr (sortJsonList elems)
  | .obj kvs => .obj (sortKVs (sortJsonKVs kvs))

def sortJsonList : List Json → List Json
  | [] => []
  | x :: t => sortJson x :: sortJsonList t

def sortJsonKVs : List (String × Json) → List (String × Json)
  | [] => []
  | (k, v) :: t => (k, sortJson v) :: sortJsonKVs t

end

/-- Four lower-case hex digits. -/
def hexDigit4 (n : Nat) : String :=
  String.mk [hexDigit (n / 4096 % 16), hexDigit (n / 256 % 16), hexDigit (n / 16 % 16),
    hexDigit (n % 16)]

/-- JSON string escaping as `json.dumps` performs it with the default
`ensure_ascii=True`. -/
def jsonEscapeChar (c : Char) : String :=
  let n := c.toNat
  if c = '"' then "\\\""
  else if c = '\\' then "\\\\"
  else if n = 8 then "\\b"
  else if n = 9 then "\\t"
  else if n = 10 then "\\n"
  else if n = 12 then "\\f"
  else if n = 13 then "\\r"
  else if n < 0x20 then "\\u" ++ hexDigit4 n
  else if n < 0x7F then c.toString
  else if n < 0x10000 then "\\u" ++ hexDigit4 n
  else
    "\\u" ++ hexDigit4 (0xD800 + (n - 0x10000) / 0x400) ++
      "\\u" ++ hexDigit4 (0xDC00 + (n - 0x10000) % 0x400)

/-- A JSON string literal. -/
def jsonQuote (s : String) : String :=
  "\"" ++ String.join (s.toList.map jsonEscapeChar) ++ "\""

mutual

/-- Serialization with Python's default separators; objects are emitted in
the order given (sorting happens in `sortJson` first). -/
def jsonDumps : Json → String
  | .null => "null"
  | .bool b => if b then "true" else "false"
  | .num q => ratStr q
  | .str s => jsonQuote s
  | .arr elems => "[" ++ jsonDumpsList elems ++ "]"
  | .obj kvs => "\x7b" ++ jsonDumpsKVs kvs ++ "\x7d"

def jsonDumpsList : List Json → String
  | [] => ""
  | [x] => jsonDumps x
  | x :: y :: t => jsonDumps x ++ ", " ++ jsonDumpsList (y :: t)

def jsonDumpsKVs : List (String × Json) → String
  | [] => ""
  | [(k, v)] => jsonQuote k ++ ": " ++ jsonDumps v
  | (k, v) :: q :: t => jsonQuote k ++ ": " ++ jsonDumps v ++ ", " ++ jsonDumpsKVs (q :: t)

end

/-- `json.dumps(data, sort_keys=True)`. -/
def jsonDumpsSorted (j : Json) : String :=
  jsonDumps (sortJson j)

/-!
## `CKANAPIClient`: cache key, cache validity, `_make_request`

mcp_ckan_server.py:60-132.  The aiohttp session is abstracted as a
function `net` from `(method, endpoint, body)` to the outcome of one HTTP
exchange; `_make_request` returns the Python result (with `Except.error`
for a raised exception), the client state after the call, and the number
of HTTP requests issued.  Time is a rational `now` supplied per call (the
source reads the clock separately for the validity check and the store;
nothing modelled depends on the difference).
-/

/-- The fingerprint string `f"{method}:{endpoint}:{json.dumps(data,
sort_keys=True) if data else ''}"` of `_get_cache_key`. -/
def cacheDataString (method endpoint : String) (data : Json) : String :=
  method ++ ":" ++ endpoint ++ ":" ++ (if data.truthy then jsonDumpsSorted data else "")

/-- `CKANAPIClient._get_cache_key` (mcp_ckan_server.py:88-90). -/
def getCacheKey (method endpoint : String) (data : Json) : String :=
  md5Hex (cacheDataString method endpoint data)

/-- One cache entry, `{"timestamp": ..., "data": ...}`. -/
structure CacheEntry where
  timestamp : ℚ
  data : Json
deriving DecidableEq

/-- Client state relevant to caching: the `cache` dict and the per-instance
`cache_ttl`, 300 at construction. -/
structure ClientState where
  cache : List (String × CacheEntry)
  cache_ttl : ℚ := 300
deriving DecidableEq

/-- `CKANAPIClient._is_cache_valid` (mcp_ckan_server.py:92-96) on a present
entry; a stored entry dict is never empty, so the `if not cache_entry`
guard corresponds to the `none` branch of the lookup at the call site. -/
def isCacheValid (st : ClientState) (now : ℚ) (e : CacheEntry) : Bool :=
  now - e.timestamp < st.cache_ttl

/-- Outcome of one HTTP exchange: a transport failure
(`aiohttp.ClientError`) or a decoded JSON response body. -/
inductive NetResponse where
  | transportError (msg : String)
  | response (body : Json)

/-- The cache consultation of `_make_request` (lines 100-104): a valid
entry for the key, when the call is a cacheable GET. -/
def cacheHit (st : ClientState) (now : ℚ) (cache_key : String)
    (use_cache : Bool) (method : String) : Option CacheEntry :=
  if use_cache && method == "GET" then
    match st.cache.lookup cache_key with
    | some entry => if isCacheValid st now entry then some entry else none
    | none => none
  else none

/-- `CKANAPIClient._make_request` (mcp_ckan_server.py:98-132). -/
def makeRequest (net : String → String → Json → NetResponse) (now : ℚ)
    (st : ClientState) (method endpoint : String) (data : Json := .null)
    (use_cache : Bool := true) : Except String Json × ClientState × Nat :=
  let cache_key := getCacheKey method endpoint data
  match cacheHit st now cache_key use_cache method with
  | some entry => (.ok entry.data, st, 0)
  | none =>
    match net method endpoint data with
    | .transportError msg => (.error ("HTTP Error: " ++ msg), st, 1)
    | .response body =>
      match body with
      | .obj kvs =>
        if !(objGetD kvs "success" (.bool false)).truthy then
          (.error ("Request failed: CKAN API Error: " ++ pyFormat (objGetD kvs "error" (.obj []))),
            st, 1)
        else
          let result_data := objGetD kvs "result" (.obj [])
          if use_cache && method == "GET" then
            (.ok result_data, { st with cache := dictSet st.cache cache_key ⟨now, result_data⟩ }, 1)
          else
            (.ok result_data, st, 1)
      | _ => (.error "Request failed: AttributeError", st, 1)

/-!
## `StandardResponse` and the tool dispatcher

mcp_ckan_server.py:31-58 and 734-887.
-/

/-- The five members of the `MCPErrorType` enumeration. -/
inductive MCPErrorType where
  | INVALID_PARAMS
  | CKAN_API_ERROR
  | NETWORK_ERROR
  | PERMISSION_DENIED
  | DATA_NOT_FOUND
deriving DecidableEq

/-- The `value` of each enum member. -/
def MCPErrorType.value : MCPErrorType → String
  | .INVALID_PARAMS => "invalid_parameters"
  | .CKAN_API_ERROR => "ckan_api_error"
  | .NETWORK_ERROR => "network_error"
  | .PERMISSION_DENIED => "permission_denied"
  | .DATA_NOT_FOUND => "data_not_found"

/-- The substring heuristic of `handle_call_tool`'s except block
(mcp_ckan_server.py:861-869). -/
def classifyError (msg : String) : MCPErrorType :=
  let m := msg.toLower
  if strContains m "not found" then .DATA_NOT_FOUND
  else if strContains m "permission" || strContains m "unauthorized" then .PERMISSION_DENIED
  else if strContains m "network" || strContains m "connection" then .NETWORK_ERROR
  else if strContains m "invalid" || strContains m "parameter" then .INVALID_PARAMS
  else .CKAN_API_ERROR

/-- `StandardResponse` (mcp_ckan_server.py:38-47): `data` and `error`
default to Python `None` (`Json.null` here); `metadata` is the dict built
in `__init__` from the construction-time UTC timestamp, with
`execution_time_ms` back-filled by the dispatcher before serialization. -/
structure StandardResponse where
  success : Bool
  data : Json := .null
  error : Json := .null
  metadata : Json
deriving DecidableEq

/-- Construction plus the dispatcher's `execution_time_ms` back-fill. -/
def StandardResponse.make (success : Bool) (data : Json) (error : Json)
    (timestamp : String) (exec_ms : ℚ) : StandardResponse :=
  { success, data, error,
    metadata := .obj [("timestamp", .str timestamp), ("execution_time_ms", .num exec_ms),
      ("api_version", .str "2.0.0")] }

/-- `StandardResponse.to_dict` (mcp_ckan_server.py:49-58): `data` is added
when `self.data is not None`, `error` when `self.error` is truthy. -/
def StandardResponse.to_dict (r : StandardResponse) : List (String × Json) :=
  [("success", .bool r.success), ("metadata", r.metadata)]
    ++ (if r.data ≠ .null then [("data", r.data)] else [])
    ++ (if r.error.truthy then [("error", r.error)] else [])

/-- Whether a serialized envelope carries a field. -/
def hasKey (kvs : List (String × Json)) (k : String) : Bool :=
  (kvs.lookup k).isSome

/-- The try/except boundary of `handle_call_tool`
(mcp_ckan_server.py:747-887) around an initialized client.  The try block
— the 16-way tool dispatch together with its awaited client calls — is
abstracted as `runTool`, the function from tool name and argument dict to
the Python outcome (value returned, or exception raised with its message).
The except block classifies the message and wraps it with the tool name
and the original arguments. -/
def handleCallTool (runTool : String → Json → Except String Json)
    (name : String) (arguments : Json) (timestamp : String) (exec_ms : ℚ) : StandardResponse :=
  match runTool name arguments with
  | .ok result => StandardResponse.make true result .null timestamp exec_ms
  | .error e =>
    StandardResponse.make false .null
      (.obj [("type", .str (classifyError e).value), ("message", .str e),
        ("tool", .str name), ("arguments", arguments)]) timestamp exec_ms

/-!
## Derived operations

Each operation composes `_make_request` calls with local computation.  The
fetches are abstracted as a function `fetch` from a GET endpoint string to
the unwrapped portal result (all derived operations issue only GETs with
no body); operations that must account for how many requests they issue
also return the list of endpoints they called, in order.
-/

/-- Upper-case hex digit, as `urllib.parse.quote` emits. -/
def hexDigitU (n : Nat) : Char :=
  if n < 10 then Char.ofNat (48 + n) else Char.ofNat (55 + n)

/-- Percent-encoding of one UTF-8 byte under `quote`'s default safe set
(unreserved characters plus `/`). -/
def quoteByte (b : Nat) : String :=
  if (65 ≤ b ∧ b ≤ 90) ∨ (97 ≤ b ∧ b ≤ 122) ∨ (48 ≤ b ∧ b ≤ 57) ∨
      b = 45 ∨ b = 46 ∨ b = 95 ∨ b = 126 ∨ b = 47 then
    (Char.ofNat b).toString
  else
    "%" ++ String.mk [hexDigitU (b / 16), hexDigitU (b % 16)]

/-- `urllib.parse.quote(s)` with its default `safe='/'`. -/
def pyQuote (s : String) : String :=
  String.join ((utf8Bytes s).map quoteByte)

/-- The `fq` filter clause assembled by `CKANAPIClient.faceted_search`
(mcp_ckan_server.py:143-147) from a non-empty filter dict: one
`f"{field}:{value}"` per item, joined with `" AND "`.  Values are
interpolated verbatim; nothing splits comma-separated values.  (The
separate CLI explorer's `search_packages` does split a comma-separated
tags argument, but this function — the QueryBuilder path the claim cites —
does not.) -/
def facetedSearchFq (filters : List (String × Json)) : String :=
  String.intercalate " AND " (filters.map fun p => p.1 ++ ":" ++ pyFormat p.2)

/-!
### Quality scoring (`check_data_quality`, mcp_ckan_server.py:207-277)
-/

/-- The fixed required-field list of the completeness check. -/
def required_fields : List String :=
  ["title", "notes", "tags", "organization", "resources"]

/-- The format allow-list of the format-validation check. -/
def valid_formats : List String :=
  ["CSV", "JSON", "XML", "XLS", "XLSX", "PDF", "TXT"]

/-- The default check list used when `checks is None`. -/
def default_checks : List String :=
  ["completeness", "format_validation", "schema_compliance"]

/-- The quality report: `checks` maps check names to their detail dicts
(each carrying a `"score"`), in the fixed order the source appends them. -/
structure QualityReport where
  dataset_id : String
  dataset_name : Json
  timestamp : String
  checks : List (String × Json)
  overall_score : ℚ
deriving DecidableEq

/-- The score recorded in a list of check entries for a named check. -/
def checksScore (cl : List (String × Json)) (name : String) : Option ℚ :=
  match cl.lookup name with
  | some (.obj kvs) =>
    match kvs.lookup "score" with
    | some (.num q) => some q
    | _ => none
  | _ => none

/-- The score recorded in a report for a named check, when present. -/
def QualityReport.checkScore (r : QualityReport) (name : String) : Option ℚ :=
  checksScore r.checks name

/-- The completeness branch (lines 224-234). -/
def completenessPart (kvs : List (String × Json)) (checks : List String) :
    List (String × Json) × List ℚ :=
  if checks.contains "completeness" then
    let present := required_fields.countP fun f => (objGetD kvs f .null).truthy
    let score : ℚ := ((present : ℚ) / (required_fields.length : ℚ)) * 100
    ([("completeness", .obj [("score", .num score),
       ("required_fields", .arr (required_fields.map .str)),
       ("present_fields", .num present)])], [score])
  else ([], [])

/-- Score of one resource in the format-validation loop (lines 241-245):
100 when the upper-cased format is allow-listed and the url is truthy. -/
def resourceFormatScore (r : Json) : Except String ℚ := do
  let fmtJ ← pyGet r "format" (.str "")
  let fmt ← pyUpper fmtJ
  let urlJ ← pyGet r "url" .null
  pure (if valid_formats.contains fmt && urlJ.truthy then 100 else 0)

/-- The format-validation branch (lines 236-253); the empty-list mean is
defined as 0 by the `if format_scores else 0` conditional. -/
def formatValidationPart (kvs : List (String × Json)) (checks : List String) :
    Except String (List (String × Json) × List ℚ) := do
  if checks.contains "format_validation" then
    let resources := objGetD kvs "resources" (.arr [])
    let rs ← pyIter resources
    let format_scores ← mapExcept resourceFormatScore rs
    let rcount ← pyLen resources
    let format_score : ℚ :=
      if format_scores.isEmpty then 0 else format_scores.sum / (format_scores.length : ℚ)
    pure ([("format_validation", .obj [("score", .num format_score),
      ("resource_count", .num rcount),
      ("valid_formats", .arr (valid_formats.map .str))])], [format_score])
  else
    pure ([], [])

/-- The schema-compliance branch (lines 255-274). -/
def schemaCompliancePart (kvs : List (String × Json)) (checks : List String) :
    List (String × Json) × List ℚ :=
  if checks.contains "schema_compliance" then
    let has_license := (objGetD kvs "license_id" .null).truthy
    let has_author :=
      (objGetD kvs "author" .null).truthy || (objGetD kvs "author_email" .null).truthy
    let has_maintainer :=
      (objGetD kvs "maintainer" .null).truthy || (objGetD kvs "maintainer_email" .null).truthy
    let has_temporal :=
      (objGetD kvs "temporal_coverage_from" .null).truthy ||
        (objGetD kvs "temporal_coverage_to" .null).truthy
    let has_spatial := (objGetD kvs "spatial" .null).truthy
    let compliance_items := [has_license, has_author, has_maintainer, has_temporal, has_spatial]
    let score : ℚ :=
      ((compliance_items.countP id : ℚ) / (compliance_items.length : ℚ)) * 100
    ([("schema_compliance", .obj [("score", .num score),
      ("has_license", .bool has_license), ("has_author", .bool has_author),
      ("has_maintainer", .bool has_maintainer), ("has_temporal_coverage", .bool has_temporal),
      ("has_spatial_coverage", .bool has_spatial)])], [score])
  else ([], [])

/-- `CKANAPIClient.check_data_quality` after its `package_show` fetch: the
report computed from the fetched dataset.  `checksArg = none` models the
Python `checks=None` default; `sample_size` is accepted by the source but
never used, and is therefore absent here. -/
def checkDataQuality (dataset : Json) (dataset_id : String)
    (checksArg : Option (List String)) (timestamp : String) : Except String QualityReport := do
  let checks := checksArg.getD default_checks
  let dkvs ← asObj dataset
  let (cchecks, cscores) := completenessPart dkvs checks
  let (fchecks, fscores) ← formatValidationPart dkvs checks
  let (schecks, sscores) := schemaCompliancePart dkvs checks
  let scores := cscores ++ fscores ++ sscores
  pure { dataset_id, dataset_name := objGetD dkvs "name" .null, timestamp,
         checks := cchecks ++ fchecks ++ schecks,
         overall_score := if scores.isEmpty then 0 else scores.sum / (scores.length : ℚ) }

/-!
### Analytics (`get_dataset_analytics`, mcp_ckan_server.py:279-329)
-/

/-- The `metrics` dict assembled by the specific-dataset branch of
`get_dataset_analytics` (lines 309-327) from the fetched dataset.
`metricsArg = none` models the Python `metrics=None` default, replaced by
`["views", "downloads", "api_calls", "resource_count"]`. -/
def datasetAnalyticsMetrics (dataset : Json) (metricsArg : Option (List String)) :
    Except String (List (String × Json)) := do
  let metrics := metricsArg.getD ["views", "downloads", "api_calls", "resource_count"]
  let kvs ← asObj dataset
  let m1 ←
    if metrics.contains "resource_count" then do
      let n ← pyLen (objGetD kvs "resources" (.arr []))
      pure [("resource_count", Json.num n)]
    else pure []
  let m2 ←
    if metrics.contains "views" then do
      let v ← pyGet (objGetD kvs "tracking_summary" (.obj [])) "total" (.num 0)
      pure [("views", v)]
    else pure []
  let m3 ←
    if metrics.contains "downloads" then do
      let v ← pyGet (objGetD kvs "tracking_summary" (.obj [])) "recent" (.num 0)
      pure [("downloads", v)]
    else pure []
  let tags_count ← pyLen (objGetD kvs "tags" (.arr []))
  let orgName ← pyGet (objGetD kvs "organization" (.obj [])) "name" .null
  pure (m1 ++ m2 ++ m3 ++
    [("created", objGetD kvs "metadata_created" .null),
     ("modified", objGetD kvs "metadata_modified" .null),
     ("tags_count", .num tags_count),
     ("organization", orgName)])

/-!
### Relatedness (`get_related_datasets`, mcp_ckan_server.py:171-205)
-/

/-- The comprehension `[ds for ds in ... if ds["id"] != dataset_id]`. -/
def filterNotSource : List Json → String → Except String (List Json)
  | [], _ => .ok []
  | d :: t, dataset_id => do
    let idv ← pyIndex d "id"
    let rest ← filterNotSource t dataset_id
    pure (if idv = .str dataset_id then rest else d :: rest)

/-- Read `results.get("results", [])` and drop the source dataset, as the
comprehension in each search branch does. -/
def searchFilter (results : Json) (dataset_id : String) : Except String (List Json) := do
  let rl ← pyGet results "results" (.arr [])
  let items ← pyIter rl
  filterNotSource items dataset_id

/-- One search branch: fetch the search endpoint, read `results`, drop the
source dataset.  Returns the outcome and the endpoints fetched. -/
def relatedSearch (fetch : String → Except String Json) (endpoint dataset_id : String) :
    Except String (List Json) × List String :=
  match fetch endpoint with
  | .error e => (.error e, [endpoint])
  | .ok results =>
    match searchFilter results dataset_id with
    | .error e => (.error e, [endpoint])
    | .ok related => (.ok related, [endpoint])

/-- The relation-specific middle of `get_related_datasets` (lines
179-203): the `related_datasets` list before the final truncation,
together with the search endpoints fetched. -/
def relatedBranch (fetch : String → Except String Json) (source : Json)
    (dataset_id relation_type : String) (max_results : Nat) :
    Except String (List Json) × List String :=
  if relation_type = "tags" then
    match (do
      let tagsJ ← pyGet source "tags" (.arr [])
      let tagItems ← pyIter tagsJ
      mapExcept (fun t => pyIndex t "name") tagItems) with
    | .error e => (.error e, [])
    | .ok tags =>
      if tags.isEmpty then (.ok [], [])
      else
        let tag_query := String.intercalate " OR " (tags.map fun t => "tags:" ++ pyFormat t)
        relatedSearch fetch
          ("package_search?q=*:*&fq=" ++ pyQuote tag_query ++ "&rows=" ++ toString max_results)
          dataset_id
  else if relation_type = "organization" then
    match (do
      let orgJ := objGetD (← asObj source) "organization" (.obj [])
      pyGet orgJ "id" .null) with
    | .error e => (.error e, [])
    | .ok org =>
      if org.truthy then
        relatedSearch fetch
          ("package_search?q=organization:" ++ pyFormat org ++ "&rows=" ++ toString max_results)
          dataset_id
      else (.ok [], [])
  else if relation_type = "theme" then
    match pyGet source "groups" (.arr []) with
    | .error e => (.error e, [])
    | .ok groups =>
      if groups.truthy then
        match (do
          let groupItems ← pyIter groups
          mapExcept (fun g => pyIndex g "id") groupItems) with
        | .error e => (.error e, [])
        | .ok gids =>
          let group_query :=
            String.intercalate " OR " (gids.map fun g => "groups:" ++ pyFormat g)
          relatedSearch fetch
            ("package_search?q=*:*&fq=" ++ pyQuote group_query ++ "&rows=" ++
              toString max_results)
            dataset_id
      else (.ok [], [])
  else (.ok [], [])

/-- `CKANAPIClient.get_related_datasets` (mcp_ckan_server.py:171-205),
with `_make_request` abstracted as `fetch`; the second component lists the
endpoints requested, in order. -/
def getRelatedDatasets (fetch : String → Except String Json)
    (dataset_id : String) (relation_type : String := "tags") (max_results : Nat := 10) :
    Except String (List Json) × List String :=
  let ep1 := "package_show?id=" ++ dataset_id
  match fetch ep1 with
  | .error e => (.error e, [ep1])
  | .ok source =>
    match relatedBranch fetch source dataset_id relation_type max_results with
    | (.error e, calls) => (.error e, ep1 :: calls)
    | (.ok related, calls) => (.ok (related.take max_results), ep1 :: calls)

/-!
### Preview extraction (`preview_resource`, mcp_ckan_server.py:331-366)
-/

/-- The field-statistics loop (lines 353-361). -/
def fieldStat (f : Json) : Except String Json := do
  let fk ← asObj f
  pure (.obj [("id", objGetD fk "id" .null), ("type", objGetD fk "type" .null),
    ("info", objGetD fk "info" (.obj []))])

/-- `CKANAPIClient.preview_resource` (mcp_ckan_server.py:331-366).  The
bare `except:` around the datastore query catches every failure of the
secondary fetch and of the processing after it; the dict as mutated so far
is kept, `preview_data` is overwritten with `None` and a note is added. -/
def previewResource (fetch : String → Except String Json) (resource_id : String)
    (preview_rows : Nat := 10) (generate_stats : Bool := true) :
    Except String (List (String × Json)) := do
  let resource ← fetch ("resource_show?id=" ++ resource_id)
  let rkvs ← asObj resource
  let preview : List (String × Json) :=
    [("resource_id", .str resource_id),
     ("resource_name", objGetD rkvs "name" .null),
     ("format", objGetD rkvs "format" .null),
     ("url", objGetD rkvs "url" .null),
     ("size", objGetD rkvs "size" .null),
     ("created", objGetD rkvs "created" .null),
     ("last_modified", objGetD rkvs "last_modified" .null)]
  let tried : Except (List (String × Json)) (List (String × Json)) :=
    match fetch ("datastore_search?resource_id=" ++ resource_id ++ "&limit=" ++
        toString preview_rows) with
    | .error _ => .error preview
    | .ok dinfo =>
      match asObj dinfo with
      | .error _ => .error preview
      | .ok dkvs =>
        let p1 := dictSet preview "preview_data" (objGetD dkvs "records" (.arr []))
        let p2 := dictSet p1 "total_records" (objGetD dkvs "total" (.num 0))
        if generate_stats && (objGetD dkvs "fields" .null).truthy then
          match (do
            let fieldItems ← pyIter (objGetD dkvs "fields" (.arr []))
            mapExcept fieldStat fieldItems) with
          | .error _ => .error p2
          | .ok stats => .ok (dictSet p2 "field_statistics" (.arr stats))
        else .ok p2
  match tried with
  | .ok p => pure p
  | .error partial_preview =>
    pure (dictSet (dictSet partial_preview "preview_data" .null) "note"
      (.str "DataStore not available for this resource"))

/-!
## Shared lemmas
-/

theorem lookup_cons {α} (k a : String) (v : α) (t : List (String × α)) :
    ((a, v) :: t).lookup k = if k = a then some v else t.lookup k := by
  by_cases h : k = a
  · simp [List.lookup, beq_iff_eq, h]
  · have hb : (k == a) = false := by simp [beq_iff_eq, h]
    simp [List.lookup, hb, h]

theorem lookup_append {α} (l₁ l₂ : List (String × α)) (k : String) :
    (l₁ ++ l₂).lookup k = ((l₁.lookup k).orElse fun _ => l₂.lookup k) := by
  induction l₁ with
  | nil => simp [List.lookup]
  | cons p t ih =>
    obtain ⟨a, v⟩ := p
    by_cases h : k = a
    · simp [lookup_cons, h]
    · simp [lookup_cons, h, ih]

theorem lookup_dictSet_self {α} (l : List (String × α)) (k : String) (v : α) :
    (dictSet l k v).lookup k = some v := by
  induction l with
  | nil => simp [dictSet, lookup_cons]
  | cons p t ih =>
    obtain ⟨a, w⟩ := p
    by_cases h : a = k
    · simp [dictSet, h, lookup_cons]
    · have h' : ¬ k = a := fun hh => h hh.symm
      simp [dictSet, h, lookup_cons, h', ih]

theorem lookup_dictSet_ne {α} (l : List (String × α)) (k k' : String) (v : α) (h : k' ≠ k) :
    (dictSet l k v).lookup k' = l.lookup k' := by
  induction l with
  | nil => simp [dictSet, lookup_cons, h]
  | cons p t ih =>
    obtain ⟨a, w⟩ := p
    by_cases hp : a = k
    · subst hp
      simp [dictSet, lookup_cons, h, fun hh => h hh]
    · simp [dictSet, hp, lookup_cons, ih]

/-!
## C2: every thrown tool failure becomes a classified error envelope
-/

/-- C2.  For every tool invocation whose dispatched execution raises, the
dispatcher returns an envelope with `success = false` whose error record
carries a `type` drawn from the five `MCPErrorType` values, the raised
message, the tool name and the original arguments.  `handleCallTool` is a
total function into `StandardResponse`, so no raised failure crosses the
dispatch boundary. -/
theorem C2_dispatcher_wraps_failures (runTool : String → Json → Except String Json)
    (name : String) (arguments : Json) (ts : String) (ms : ℚ) (e : String)
    (h : runTool name arguments = .error e) :
    (handleCallTool runTool name arguments ts ms).success = false ∧
    (∃ s, jsonLookup (handleCallTool runTool name arguments ts ms).error "type" =
        some (.str s) ∧
      s ∈ ["invalid_parameters", "ckan_api_error", "network_error", "permission_denied",
            "data_not_found"]) ∧
    jsonLookup (handleCallTool runTool name arguments ts ms).error "message" =
      some (.str e) ∧
    jsonLookup (handleCallTool runTool name arguments ts ms).error "tool" =
      some (.str name) ∧
    jsonLookup (handleCallTool runTool name arguments ts ms).error "arguments" =
      some arguments := by
  refine ⟨?_, ⟨(classifyError e).value, ?_, ?_⟩, ?_, ?_, ?_⟩
  · simp [handleCallTool, h, StandardResponse.make]
  · simp [handleCallTool, h, StandardResponse.make, jsonLookup, lookup_cons]
  · cases classifyError e <;> simp [MCPErrorType.value]
  · simp [handleCallTool, h, StandardResponse.make, jsonLookup, lookup_cons]
  · simp [handleCallTool, h, StandardResponse.make, jsonLookup, lookup_cons]
  · simp [handleCallTool, h, StandardResponse.make, jsonLookup, lookup_cons]

/-- Witness for C2 at a concrete raising tool. -/
theorem C2_dispatcher_wraps_failures_witness :
    (handleCallTool (fun _ _ => .error "boom") "ckan_package_show" (.obj [("id", .str "x")])
      "2024-01-01T00:00:00" 3).success = false ∧
    (∃ s, jsonLookup (handleCallTool (fun _ _ => .error "boom") "ckan_package_show"
        (.obj [("id", .str "x")]) "2024-01-01T00:00:00" 3).error "type" = some (.str s) ∧
      s ∈ ["invalid_parameters", "ckan_api_error", "network_error", "permission_denied",
            "data_not_found"]) ∧
    jsonLookup (handleCallTool (fun _ _ => .error "boom") "ckan_package_show"
      (.obj [("id", .str "x")]) "2024-01-01T00:00:00" 3).error "message" =
        some (.str "boom") ∧
    jsonLookup (handleCallTool (fun _ _ => .error "boom") "ckan_package_show"
      (.obj [("id", .str "x")]) "2024-01-01T00:00:00" 3).error "tool" =
        some (.str "ckan_package_show") ∧
    jsonLookup (handleCallTool (fun _ _ => .error "boom") "ckan_package_show"
      (.obj [("id", .str "x")]) "2024-01-01T00:00:00" 3).error "arguments" =
        some (.obj [("id", .str "x")]) :=
  C2_dispatcher_wraps_failures (fun _ _ => .error "boom") "ckan_package_show"
    (.obj [("id", .str "x")]) "2024-01-01T00:00:00" 3 "boom" rfl

/-!
## C3: presence of `data`/`error` in the serialized envelope
-/

/-- C3 counterexample.  The claim says the serialized envelope contains
`data` iff `success` is true "for every possible payload including a
null/None result".  A success envelope whose payload is `None` — as
`handle_call_tool` builds whenever the portal's unwrapped `result` is JSON
null — omits the `data` field (`to_dict` guards on `data is not None`), so
presence of `data` is not equivalent to `success` there. -/
theorem C3_data_iff_success_counterexample :
    ¬ (hasKey (StandardResponse.make true .null .null "2024-01-01T00:00:00" 0).to_dict
        "data" = true ↔
      (StandardResponse.make true .null .null "2024-01-01T00:00:00" 0).success = true) := by
  decide

/-- C3 as amended: the serialized envelope contains `data` iff the payload
is not `None` (so success with a `None` result omits it), and contains
`error` iff the error record is truthy (never on success envelopes, which
carry error `None`; always on dispatcher failure envelopes, whose error
dict is non-empty). -/
theorem C3_to_dict_field_presence (r : StandardResponse) :
    (hasKey r.to_dict "data" = true ↔ r.data ≠ .null) ∧
    (hasKey r.to_dict "error" = true ↔ r.error.truthy = true) := by
  by_cases hd : r.data = .null <;> by_cases he : r.error.truthy <;>
    simp [StandardResponse.to_dict, hasKey, hd, he, lookup_append, lookup_cons, List.lookup]

/-!
## C4: the faceted-search filter clause
-/

/-- C4 counterexample.  The claim says filters
`{organization: "x", tags: "a,b"}` produce
`organization:x AND tags:a AND tags:b`.  `faceted_search` interpolates
each value verbatim into one `field:value` pair and never splits a
comma-separated tags value, so the clause is `organization:x AND tags:a,b`
instead.  (Comma splitting exists only in the CLI explorer's separate
`search_packages` helper.) -/
theorem C4_no_tag_splitting_counterexample :
    facetedSearchFq [("organization", .str "x"), ("tags", .str "a,b")] =
      "organization:x AND tags:a,b" ∧
    facetedSearchFq [("organization", .str "x"), ("tags", .str "a,b")] ≠
      "organization:x AND tags:a AND tags:b" := by
  constructor
  · rfl
  · decide

/-- C4 as amended: filter fields join into `field:value` pairs combined
with `AND`, each value interpolated verbatim (no comma splitting), so the
cited input yields `organization:x AND tags:a,b`. -/
theorem C4_filter_clause_and_join :
    facetedSearchFq [("organization", .str "x"), ("tags", .str "a,b")] =
      "organization:x AND tags:a,b" ∧
    ∀ (f₁ f₂ : String) (v₁ v₂ : Json),
      facetedSearchFq [(f₁, v₁), (f₂, v₂)] =
        f₁ ++ ":" ++ pyFormat v₁ ++ " AND " ++ (f₂ ++ ":" ++ pyFormat v₂) := by
  refine ⟨rfl, fun f₁ f₂ v₁ v₂ => ?_⟩
  simp [facetedSearchFq, String.intercalate, String.intercalate.go]

/-!
## C5: per-dataset analytics views/downloads
-/

/-- C5 counterexample.  For a dataset with no `tracking_summary`
sub-object and requested metrics `["views", "downloads"]`, the metrics
dict still contains both entries, defaulted to 0 by
`dataset.get("tracking_summary", {}).get("total", 0)` (resp. `"recent"`);
the claim's assertion that the entries are then absent (not defaulted)
fails: the `views` lookup yields `some 0`, not `none`. -/
theorem C5_tracking_summary_default_counterexample :
    datasetAnalyticsMetrics (.obj [("name", .str "d")]) (some ["views", "downloads"]) =
      .ok [("views", .num 0), ("downloads", .num 0), ("created", .null), ("modified", .null),
        ("tags_count", .num 0), ("organization", .null)] ∧
    (datasetAnalyticsMetrics (.obj [("name", .str "d")])
      (some ["views", "downloads"])).map (fun m => m.lookup "views") ≠ .ok none := by
  constructor
  · rfl
  · decide

/-- C5 as amended: when requested, `views` is read from the dataset's
`tracking_summary.total` and `downloads` from `tracking_summary.recent`,
each defaulting to 0 — and therefore still present in the report — when
the sub-object or its key is missing. -/
theorem C5_views_downloads_semantics (kvs tkvs : List (String × Json))
    (metricsArg : Option (List String)) (m : List (String × Json))
    (ht : objGetD kvs "tracking_summary" (.obj []) = .obj tkvs)
    (hok : datasetAnalyticsMetrics (.obj kvs) metricsArg = .ok m) :
    ((metricsArg.getD ["views", "downloads", "api_calls", "resource_count"]).contains "views" =
        true →
      m.lookup "views" = some (objGetD tkvs "total" (.num 0))) ∧
    ((metricsArg.getD ["views", "downloads", "api_calls", "resource_count"]).contains
        "downloads" = true →
      m.lookup "downloads" = some (objGetD tkvs "recent" (.num 0))) := by
  unfold datasetAnalyticsMetrics at hok
  simp only [bind, Except.bind, pure, Except.pure, asObj, pyGet] at hok
  rw [ht] at hok
  simp only [asObj, bind, Except.bind, pure, Except.pure] at hok
  repeat' split at hok
  all_goals try exact Except.noConfusion hok
  all_goals injection hok with hm
  all_goals subst hm
  all_goals constructor <;> intro hc <;> simp_all [lookup_append, lookup_cons]

/-- Witness for C5's amended theorem at a concrete dataset that carries a
tracking summary. -/
theorem C5_views_downloads_semantics_witness :
    List.lookup "views" [("resource_count", Json.num 0), ("views", Json.num 7),
        ("downloads", Json.num 2), ("created", Json.null), ("modified", Json.null),
        ("tags_count", Json.num 0), ("organization", Json.null)] = some (Json.num 7) ∧
    List.lookup "downloads" [("resource_count", Json.num 0), ("views", Json.num 7),
        ("downloads", Json.num 2), ("created", Json.null), ("modified", Json.null),
        ("tags_count", Json.num 0), ("organization", Json.null)] = some (Json.num 2) := by
  have h := C5_views_downloads_semantics
    [("tracking_summary", .obj [("total", .num 7), ("recent", .num 2)])]
    [("total", .num 7), ("recent", .num 2)] none
    [("resource_count", .num 0), ("views", .num 7), ("downloads", .num 2), ("created", .null),
     ("modified", .null), ("tags_count", .num 0), ("organization", .null)]
    (by decide) (by decide)
  exact ⟨h.1 (by decide), h.2 (by decide)⟩

/-!
## C6: empty resource list gives format-validation score 0
-/

/-- C6.  For every dataset whose resource list is empty, quality checking
with `checks=["format_validation"]` succeeds (no raised error; scores are
exact rationals, so no NaN arises) and the recorded format-validation
score is exactly 0: the source defines the empty mean to 0 through
`sum(...) / len(...) if format_scores else 0`. -/
theorem C6_empty_resources_format_score_zero (kvs : List (String × Json)) (dsid ts : String)
    (h : objGetD kvs "resources" (.arr []) = .arr []) :
    checkDataQuality (.obj kvs) dsid (some ["format_validation"]) ts =
      .ok { dataset_id := dsid, dataset_name := objGetD kvs "name" .null, timestamp := ts,
            checks := [("format_validation", .obj [("score", .num 0), ("resource_count", .num 0),
              ("valid_formats", .arr (valid_formats.map .str))])],
            overall_score := 0 } ∧
    ∀ r, checkDataQuality (.obj kvs) dsid (some ["format_validation"]) ts = .ok r →
      r.checkScore "format_validation" = some 0 := by
  have heq : checkDataQuality (.obj kvs) dsid (some ["format_validation"]) ts =
      .ok { dataset_id := dsid, dataset_name := objGetD kvs "name" .null, timestamp := ts,
            checks := [("format_validation", .obj [("score", .num 0), ("resource_count", .num 0),
              ("valid_formats", .arr (valid_formats.map .str))])],
            overall_score := 0 } := by
    simp only [checkDataQuality, formatValidationPart, bind, Except.bind, pure, Except.pure,
      asObj]
    rw [h]
    simp [completenessPart, schemaCompliancePart, mapExcept, pyIter, pyLen, default_checks]
  refine ⟨heq, fun r hr => ?_⟩
  rw [heq] at hr
  injection hr with hr'
  subst hr'
  rfl

/-- Witness for C6 at a concrete dataset with an empty resource list. -/
theorem C6_empty_resources_format_score_zero_witness :
    checkDataQuality (.obj [("name", .str "d"), ("resources", .arr [])]) "d1"
        (some ["format_validation"]) "ts" =
      .ok { dataset_id := "d1", dataset_name := .str "d", timestamp := "ts",
            checks := [("format_validation", .obj [("score", .num 0), ("resource_count", .num 0),
              ("valid_formats", .arr (valid_formats.map .str))])],
            overall_score := 0 } :=
  (C6_empty_resources_format_score_zero [("name", .str "d"), ("resources", .arr [])]
    "d1" "ts" (by decide)).1

/-!
## C1: GET caching in `_make_request`
-/

/-- A cacheable GET finds a valid entry exactly as the claim's TTL window
describes. -/
theorem cacheHit_some (st : ClientState) (now : ℚ) (key : String) (entry : CacheEntry)
    (h1 : st.cache.lookup key = some entry) (h2 : now - entry.timestamp < st.cache_ttl) :
    cacheHit st now key true "GET" = some entry := by
  simp [cacheHit, h1, isCacheValid, h2]

/-- When every entry under the key is stale (or none exists), the cache
consultation comes back empty. -/
theorem cacheHit_none (st : ClientState) (now : ℚ) (key : String)
    (hmiss : ∀ entry, st.cache.lookup key = some entry →
      ¬ now - entry.timestamp < st.cache_ttl) :
    cacheHit st now key true "GET" = none := by
  unfold cacheHit
  cases hL : st.cache.lookup key with
  | none => simp
  | some entry => simp [isCacheValid, hmiss entry hL]

/-- A cached GET that comes back `ok` after one network request has stored
the unwrapped result under the request's cache key, leaving everything
else of the state unchanged. -/
theorem makeRequest_ok_fetched (net : String → String → Json → NetResponse) (now : ℚ)
    (st : ClientState) (endpoint : String) (data : Json) (v : Json) (st' : ClientState)
    (h : makeRequest net now st "GET" endpoint data true = (.ok v, st', 1)) :
    st' = { st with
      cache := dictSet st.cache (getCacheKey "GET" endpoint data) ⟨now, v⟩ } := by
  simp only [makeRequest] at h
  repeat' split at h
  all_goals simp_all
  all_goals obtain ⟨rfl, rfl⟩ := h
  all_goals rfl

/-- C1.  For `method = "GET"` with `use_cache = true`:
(i) when the cache holds an entry for the derived key whose timestamp is
within the TTL window (`now - timestamp < cache_ttl`; the ttl is 300 at
construction), the call returns that entry's payload, issues no network
request, and leaves the state unchanged;
(ii) when no such valid entry exists, exactly one network request is
issued, and a successful call stores its result under the same key;
(iii) hence a successful fetched call followed within the TTL window by a
second call with the same `(method, endpoint, body)` returns the identical
payload with zero network requests, whatever the network would answer. -/
theorem C1_get_cache_semantics (net : String → String → Json → NetResponse)
    (now now2 : ℚ) (st : ClientState) (endpoint : String) (data : Json) :
    (∀ entry, st.cache.lookup (getCacheKey "GET" endpoint data) = some entry →
      now - entry.timestamp < st.cache_ttl →
      makeRequest net now st "GET" endpoint data true = (.ok entry.data, st, 0)) ∧
    ((∀ entry, st.cache.lookup (getCacheKey "GET" endpoint data) = some entry →
        ¬ now - entry.timestamp < st.cache_ttl) →
      (makeRequest net now st "GET" endpoint data true).2.2 = 1 ∧
      ∀ v st', makeRequest net now st "GET" endpoint data true = (.ok v, st', 1) →
        st'.cache.lookup (getCacheKey "GET" endpoint data) = some ⟨now, v⟩ ∧
        st'.cache_ttl = st.cache_ttl) ∧
    (∀ v st', makeRequest net now st "GET" endpoint data true = (.ok v, st', 1) →
      now2 - now < st.cache_ttl →
      ∀ net2, makeRequest net2 now2 st' "GET" endpoint data true = (.ok v, st', 0)) := by
  refine ⟨?_, ?_, ?_⟩
  · intro entry h1 h2
    simp only [makeRequest]
    rw [cacheHit_some st now _ entry h1 h2]
  · intro hmiss
    constructor
    · simp only [makeRequest, cacheHit_none st now _ hmiss]
      repeat' split
      all_goals rfl
    · intro v st' h
      have hst := makeRequest_ok_fetched net now st endpoint data v st' h
      subst hst
      exact ⟨lookup_dictSet_self _ _ _, rfl⟩
  · intro v st' h hwin net2
    have hst := makeRequest_ok_fetched net now st endpoint data v st' h
    subst hst
    simp only [makeRequest]
    rw [cacheHit_some
      { st with cache := dictSet st.cache (getCacheKey "GET" endpoint data) ⟨now, v⟩ }
      now2 _ ⟨now, v⟩ (lookup_dictSet_self _ _ _) hwin]

/-- Witness for C1 at a concrete portal: one fetched call at time 0 with
ttl 300, one cache hit at time 5. -/
theorem C1_get_cache_semantics_witness :
    makeRequest (fun _ _ _ => .transportError "offline") 5
      ⟨[(getCacheKey "GET" "package_list" .null, ⟨0, .str "v"⟩)], 300⟩
      "GET" "package_list" .null true =
      (.ok (.str "v"),
        ⟨[(getCacheKey "GET" "package_list" .null, ⟨0, .str "v"⟩)], 300⟩, 0) := by
  have h := (C1_get_cache_semantics
    (fun _ _ _ => .response (.obj [("success", .bool true), ("result", .str "v")]))
    0 5 ⟨[], 300⟩ "package_list" .null).2.2 (.str "v")
    ⟨[(getCacheKey "GET" "package_list" .null, ⟨0, .str "v"⟩)], 300⟩
    (by decide) (by norm_num) (fun _ _ _ => .transportError "offline")
  simpa [dictSet] using h

/-!
## C8: graceful downgrade when the datastore query fails
-/

/-- C8.  When the secondary datastore query of `preview_resource` fails,
the operation still succeeds: the resource-metadata fields of the primary
fetch are intact, the explanatory note is attached, and `preview_data`
carries Python `None` (JSON null) — the record's marker for absent preview
data — while the dispatcher wraps the outcome with `success = true`. -/
theorem C8_preview_downgrades_gracefully (fetch : String → Except String Json)
    (resource_id : String) (preview_rows : Nat) (generate_stats : Bool)
    (rkvs : List (String × Json)) (emsg : String)
    (h1 : fetch ("resource_show?id=" ++ resource_id) = .ok (.obj rkvs))
    (h2 : fetch ("datastore_search?resource_id=" ++ resource_id ++ "&limit=" ++
      toString preview_rows) = .error emsg) :
    ∃ p, previewResource fetch resource_id preview_rows generate_stats = .ok p ∧
      p.lookup "preview_data" = some .null ∧
      p.lookup "note" = some (.str "DataStore not available for this resource") ∧
      p.lookup "resource_name" = some (objGetD rkvs "name" .null) ∧
      p.lookup "format" = some (objGetD rkvs "format" .null) ∧
      p.lookup "url" = some (objGetD rkvs "url" .null) ∧
      p.lookup "size" = some (objGetD rkvs "size" .null) ∧
      p.lookup "created" = some (objGetD rkvs "created" .null) ∧
      p.lookup "last_modified" = some (objGetD rkvs "last_modified" .null) ∧
      ∀ args ts ms,
        (handleCallTool
          (fun _ _ => (previewResource fetch resource_id preview_rows generate_stats).map
            Json.obj) "ckan_resource_preview" args ts ms).success = true := by
  have heq : previewResource fetch resource_id preview_rows generate_stats =
      .ok [("resource_id", .str resource_id),
        ("resource_name", objGetD rkvs "name" .null),
        ("format", objGetD rkvs "format" .null),
        ("url", objGetD rkvs "url" .null),
        ("size", objGetD rkvs "size" .null),
        ("created", objGetD rkvs "created" .null),
        ("last_modified", objGetD rkvs "last_modified" .null),
        ("preview_data", .null),
        ("note", .str "DataStore not available for this resource")] := by
    simp only [previewResource, bind, Except.bind, pure, Except.pure, asObj]
    rw [h1, h2]
    simp [dictSet]
  refine ⟨_, heq, ?_, ?_, ?_, ?_, ?_, ?_, ?_, ?_, ?_⟩
  · rfl
  · rfl
  · rfl
  · rfl
  · rfl
  · rfl
  · rfl
  · rfl
  · intro args ts ms
    simp [handleCallTool, heq, Except.map, StandardResponse.make]

/-- Witness for C8 at a concrete resource whose datastore query fails. -/
theorem C8_preview_downgrades_gracefully_witness :
    ∃ p, previewResource
        (fun ep => if ep = "resource_show?id=R" then .ok (.obj [("name", .str "res")])
          else .error "404") "R" 10 true = .ok p ∧
      p.lookup "preview_data" = some .null ∧
      p.lookup "note" = some (.str "DataStore not available for this resource") ∧
      p.lookup "resource_name" = some (objGetD [("name", .str "res")] "name" .null) ∧
      p.lookup "format" = some (objGetD [("name", .str "res")] "format" .null) ∧
      p.lookup "url" = some (objGetD [("name", .str "res")] "url" .null) ∧
      p.lookup "size" = some (objGetD [("name", .str "res")] "size" .null) ∧
      p.lookup "created" = some (objGetD [("name", .str "res")] "created" .null) ∧
      p.lookup "last_modified" = some (objGetD [("name", .str "res")] "last_modified" .null) ∧
      ∀ args ts ms,
        (handleCallTool
          (fun _ _ => (previewResource
            (fun ep => if ep = "resource_show?id=R" then .ok (.obj [("name", .str "res")])
              else .error "404") "R" 10 true).map Json.obj)
          "ckan_resource_preview" args ts ms).success = true :=
  C8_preview_downgrades_gracefully
    (fun ep => if ep = "resource_show?id=R" then .ok (.obj [("name", .str "res")])
      else .error "404") "R" 10 true [("name", .str "res")] "404" (by decide) (by decide)

/-!
## C7: relatedness — no-organization short cut, self-removal, truncation
-/

/-- Every dataset surviving `[ds for ds in ... if ds["id"] != dataset_id]`
has an id different from the source's. -/
theorem filterNotSource_excludes (l : List Json) (dsid : String) (out : List Json)
    (h : filterNotSource l dsid = .ok out) :
    ∀ d ∈ out, ∃ v, pyIndex d "id" = .ok v ∧ v ≠ .str dsid := by
  induction l generalizing out with
  | nil =>
    injection h with h'
    subst h'
    intro d hd
    cases hd
  | cons a t ih =>
    simp only [filterNotSource, bind, Except.bind, pure, Except.pure] at h
    cases hI : pyIndex a "id" <;> rw [hI] at h
    · exact Except.noConfusion h
    · rename_i idv
      cases hR : filterNotSource t dsid <;> rw [hR] at h
      · exact Except.noConfusion h
      · rename_i rest
        injection h with h'
        subst h'
        intro d hd
        by_cases hid : idv = .str dsid
        · rw [if_pos hid] at hd
          exact ih rest hR d hd
        · rw [if_neg hid] at hd
          rcases List.mem_cons.mp hd with rfl | hd'
          · exact ⟨idv, hI, hid⟩
          · exact ih rest hR d hd'

/-- `searchFilter` only emits datasets whose id differs from the
source's. -/
theorem searchFilter_excludes (results : Json) (dsid : String) (out : List Json)
    (h : searchFilter results dsid = .ok out) :
    ∀ d ∈ out, ∃ v, pyIndex d "id" = .ok v ∧ v ≠ .str dsid := by
  simp only [searchFilter, bind, Except.bind] at h
  cases hG : pyGet results "results" (.arr []) <;> simp only [hG] at h
  · exact Except.noConfusion h
  · rename_i rl
    cases hR : pyIter rl <;> simp only [hR] at h
    · exact Except.noConfusion h
    · exact filterNotSource_excludes _ _ _ h

/-- A successful search branch only emits datasets whose id differs from
the source's. -/
theorem relatedSearch_excludes (fetch : String → Except String Json)
    (endpoint dsid : String) (related : List Json) (calls : List String)
    (h : relatedSearch fetch endpoint dsid = (.ok related, calls)) :
    ∀ d ∈ related, ∃ v, pyIndex d "id" = .ok v ∧ v ≠ .str dsid := by
  unfold relatedSearch at h
  repeat' split at h
  all_goals rw [Prod.mk.injEq] at h
  all_goals obtain ⟨ha, hb⟩ := h
  all_goals try exact Except.noConfusion ha
  all_goals injection ha with ha'
  all_goals subst ha'
  rename_i results hfetch rel hsf
  exact searchFilter_excludes _ _ _ hsf

/-- A successful `relatedBranch` only emits datasets whose id differs from
the source's. -/
theorem relatedBranch_excludes (fetch : String → Except String Json) (source : Json)
    (dsid rt : String) (mr : Nat) (related : List Json) (calls : List String)
    (h : relatedBranch fetch source dsid rt mr = (.ok related, calls)) :
    ∀ d ∈ related, ∃ v, pyIndex d "id" = .ok v ∧ v ≠ .str dsid := by
  unfold relatedBranch at h
  repeat' split at h
  all_goals try exact relatedSearch_excludes _ _ _ _ _ h
  all_goals rw [Prod.mk.injEq] at h
  all_goals obtain ⟨ha, hb⟩ := h
  all_goals try exact Except.noConfusion ha
  all_goals injection ha with ha'
  all_goals subst ha'
  all_goals intro d hd
  all_goals cases hd

/-- C7.  (i) For a source dataset with no organization,
`relation_type="organization"` yields an empty result after the single
`package_show` fetch — no search request is issued.  (ii) Every successful
run returns at most `max_results` datasets, none of them carrying the
source dataset's id (the source is removed from the portal's search
results before the final truncation). -/
theorem C7_related_datasets (fetch : String → Except String Json) (dataset_id : String)
    (max_results : Nat) :
    (∀ skvs orgv,
      fetch ("package_show?id=" ++ dataset_id) = .ok (.obj skvs) →
      pyGet (objGetD skvs "organization" (.obj [])) "id" .null = .ok orgv →
      orgv.truthy = false →
      getRelatedDatasets fetch dataset_id "organization" max_results =
        (.ok [], ["package_show?id=" ++ dataset_id])) ∧
    (∀ relation_type res calls,
      getRelatedDatasets fetch dataset_id relation_type max_results = (.ok res, calls) →
      res.length ≤ max_results ∧
      ∀ d ∈ res, ∃ v, pyIndex d "id" = .ok v ∧ v ≠ .str dataset_id) := by
  constructor
  · intro skvs orgv hfetch horg htruthy
    have hb : relatedBranch fetch (.obj skvs) dataset_id "organization" max_results =
        (.ok [], []) := by
      simp only [relatedBranch, bind, Except.bind, asObj]
      rw [horg]
      simp [htruthy]
    simp only [getRelatedDatasets]
    simp only [hfetch, hb, List.take_nil]
  · intro relation_type res calls h
    simp only [getRelatedDatasets] at h
    cases hfetch : fetch ("package_show?id=" ++ dataset_id) <;> simp only [hfetch] at h
    · rw [Prod.mk.injEq] at h
      exact Except.noConfusion h.1
    · rename_i source
      cases hbr : relatedBranch fetch source dataset_id relation_type max_results with
      | mk bres bcalls =>
        simp only [hbr] at h
        cases bres with
        | error e =>
          rw [Prod.mk.injEq] at h
          exact Except.noConfusion h.1
        | ok related =>
          rw [Prod.mk.injEq] at h
          obtain ⟨ha, hb⟩ := h
          injection ha with ha'
          subst ha'
          refine ⟨List.length_take_le _ _, fun d hd => ?_⟩
          exact relatedBranch_excludes fetch source dataset_id relation_type max_results
            related bcalls hbr d (List.take_subset _ _ hd)

/-- Witness for C7: the organization short cut on an organization-less
dataset, and self-removal plus truncation on a concrete tags search. -/
theorem C7_related_datasets_witness :
    getRelatedDatasets
        (fun ep => if ep = "package_show?id=X" then .ok (.obj [("id", .str "X")])
          else .error "no")
        "X" "organization" 10 = (.ok [], ["package_show?id=X"]) ∧
    ([Json.obj [("id", .str "Y")]].length ≤ 1 ∧
      ∀ d ∈ [Json.obj [("id", .str "Y")]],
        ∃ v, pyIndex d "id" = .ok v ∧ v ≠ .str "X") := by
  constructor
  · exact (C7_related_datasets
      (fun ep => if ep = "package_show?id=X" then .ok (.obj [("id", .str "X")])
        else .error "no") "X" 10).1
      [("id", .str "X")] .null (by decide) (by decide) (by decide)
  · exact (C7_related_datasets
      (fun ep => if ep = "package_show?id=X" then
          .ok (.obj [("id", .str "X"), ("tags", .arr [Json.obj [("name", .str "t1")]])])
        else
          .ok (.obj [("results", .arr [Json.obj [("id", .str "X")],
            Json.obj [("id", .str "Y")], Json.obj [("id", .str "Z")]])]))
      "X" 1).2 "tags" [Json.obj [("id", .str "Y")]]
      ["package_show?id=X", "package_search?q=*:*&fq=tags%3At1&rows=1"] (by decide)

/-!
## C10: every quality score lies in [0, 100]
-/

theorem lookup_singleton {α} (k a : String) (v : α) :
    ([(a, v)] : List (String × α)).lookup k = if k = a then some v else none := by
  simp [lookup_cons]

/-- The `sum/len if nonempty else 0` mean of values in `[0, 100]` is again
in `[0, 100]`. -/
theorem listMean_bounds (l : List ℚ) (h : ∀ x ∈ l, 0 ≤ x ∧ x ≤ 100) :
    0 ≤ (if l.isEmpty then (0 : ℚ) else l.sum / (l.length : ℚ)) ∧
    (if l.isEmpty then (0 : ℚ) else l.sum / (l.length : ℚ)) ≤ 100 := by
  cases l with
  | nil => simp
  | cons a t =>
    have hpos : (0 : ℚ) < ((a :: t).length : ℚ) := by
      exact_mod_cast Nat.succ_pos t.length
    have h0 : 0 ≤ (a :: t).sum := List.sum_nonneg fun x hx => (h x hx).1
    have h100 : (a :: t).sum ≤ (a :: t).length • (100 : ℚ) :=
      List.sum_le_card_nsmul _ _ fun x hx => (h x hx).2
    rw [nsmul_eq_mul] at h100
    have hne : ¬ ((a :: t).isEmpty = true) := by simp
    rw [if_neg hne]
    constructor
    · exact div_nonneg h0 hpos.le
    · rw [div_le_iff₀ hpos]
      linarith

/-- Elements of a successful `mapExcept` all satisfy any property the
elementwise results satisfy. -/
theorem mapExcept_mem {α β : Type} (f : α → Except String β) (l : List α) (out : List β)
    (h : mapExcept f l = .ok out) (P : β → Prop) (hf : ∀ a b, f a = .ok b → P b) :
    ∀ b ∈ out, P b := by
  induction l generalizing out with
  | nil =>
    injection h with h'
    subst h'
    intro b hb
    cases hb
  | cons a t ih =>
    simp only [mapExcept, bind, Except.bind, pure, Except.pure] at h
    cases hA : f a <;> simp only [hA] at h
    · exact Except.noConfusion h
    · rename_i b0
      cases hT : mapExcept f t <;> simp only [hT] at h
      · exact Except.noConfusion h
      · rename_i rest
        injection h with h'
        subst h'
        intro b hb
        rcases List.mem_cons.mp hb with rfl | hb'
        · exact hf a b hA
        · exact ih rest hT b hb'

/-- Each per-resource format score is 0 or 100, hence in `[0, 100]`. -/
theorem resourceFormatScore_bounds (r : Json) (q : ℚ)
    (h : resourceFormatScore r = .ok q) : 0 ≤ q ∧ q ≤ 100 := by
  simp only [resourceFormatScore, bind, Except.bind, pure, Except.pure] at h
  repeat' split at h
  all_goals try exact Except.noConfusion h
  all_goals injection h with h'
  all_goals subst h'
  all_goals norm_num

/-- A count over a five-element list, divided by the list length and
scaled to 100, stays within `[0, 100]`. -/
theorem fiveItemScore_bounds (c : Nat) (hle : c ≤ 5) :
    0 ≤ ((c : ℚ) / 5) * 100 ∧ ((c : ℚ) / 5) * 100 ≤ 100 := by
  have h0 : (0 : ℚ) ≤ (c : ℚ) := Nat.cast_nonneg c
  have h5 : (c : ℚ) ≤ 5 := by exact_mod_cast hle
  have hrw : ((c : ℚ) / 5) * 100 = (c : ℚ) * 20 := by ring
  rw [hrw]
  constructor <;> nlinarith

/-- Shape and score bound of the completeness branch. -/
theorem completenessPart_shape (kvs : List (String × Json)) (checks : List String) :
    completenessPart kvs checks = ([], []) ∨
    ∃ s detail, completenessPart kvs checks =
      ([("completeness", .obj (("score", .num s) :: detail))], [s]) ∧ 0 ≤ s ∧ s ≤ 100 := by
  by_cases h : checks.contains "completeness" = true
  · right
    have hle : (required_fields.countP fun f => (objGetD kvs f .null).truthy) ≤ 5 := by
      simpa [required_fields] using
        List.countP_le_length (p := fun f => (objGetD kvs f .null).truthy)
          (l := required_fields)
    have hb := fiveItemScore_bounds _ hle
    have hlen : ((required_fields.length : ℕ) : ℚ) = 5 := by norm_num [required_fields]
    rw [← hlen] at hb
    refine ⟨((required_fields.countP fun f => (objGetD kvs f .null).truthy : ℕ) : ℚ) /
        ((required_fields.length : ℕ) : ℚ) * 100,
      [("required_fields", .arr (required_fields.map .str)),
       ("present_fields", .num (required_fields.countP fun f => (objGetD kvs f .null).truthy))],
      ?_, hb.1, hb.2⟩
    unfold completenessPart
    rw [if_pos h]
  · left
    unfold completenessPart
    rw [if_neg h]

/-- Shape and score bound of the schema-compliance branch. -/
theorem schemaCompliancePart_shape (kvs : List (String × Json)) (checks : List String) :
    schemaCompliancePart kvs checks = ([], []) ∨
    ∃ s detail, schemaCompliancePart kvs checks =
      ([("schema_compliance", .obj (("score", .num s) :: detail))], [s]) ∧ 0 ≤ s ∧ s ≤ 100 := by
  by_cases h : checks.contains "schema_compliance" = true
  · right
    have hle : ([(objGetD kvs "license_id" .null).truthy,
        (objGetD kvs "author" .null).truthy || (objGetD kvs "author_email" .null).truthy,
        (objGetD kvs "maintainer" .null).truthy ||
          (objGetD kvs "maintainer_email" .null).truthy,
        (objGetD kvs "temporal_coverage_from" .null).truthy ||
          (objGetD kvs "temporal_coverage_to" .null).truthy,
        (objGetD kvs "spatial" .null).truthy].countP id) ≤ 5 := by
      simpa using List.countP_le_length (p := id)
    have hb := fiveItemScore_bounds _ hle
    have hlen : (([(objGetD kvs "license_id" .null).truthy,
        (objGetD kvs "author" .null).truthy || (objGetD kvs "author_email" .null).truthy,
        (objGetD kvs "maintainer" .null).truthy ||
          (objGetD kvs "maintainer_email" .null).truthy,
        (objGetD kvs "temporal_coverage_from" .null).truthy ||
          (objGetD kvs "temporal_coverage_to" .null).truthy,
        (objGetD kvs "spatial" .null).truthy].length : ℕ) : ℚ) = 5 := by norm_num
    rw [← hlen] at hb
    refine ⟨(([(objGetD kvs "license_id" .null).truthy,
        (objGetD kvs "author" .null).truthy || (objGetD kvs "author_email" .null).truthy,
        (objGetD kvs "maintainer" .null).truthy ||
          (objGetD kvs "maintainer_email" .null).truthy,
        (objGetD kvs "temporal_coverage_from" .null).truthy ||
          (objGetD kvs "temporal_coverage_to" .null).truthy,
        (objGetD kvs "spatial" .null).truthy].countP id : ℕ) : ℚ) /
          (([(objGetD kvs "license_id" .null).truthy,
        (objGetD kvs "author" .null).truthy || (objGetD kvs "author_email" .null).truthy,
        (objGetD kvs "maintainer" .null).truthy ||
          (objGetD kvs "maintainer_email" .null).truthy,
        (objGetD kvs "temporal_coverage_from" .null).truthy ||
          (objGetD kvs "temporal_coverage_to" .null).truthy,
        (objGetD kvs "spatial" .null).truthy].length : ℕ) : ℚ) * 100,
      [("has_license", .bool (objGetD kvs "license_id" .null).truthy),
       ("has_author", .bool ((objGetD kvs "author" .null).truthy ||
          (objGetD kvs "author_email" .null).truthy)),
       ("has_maintainer", .bool ((objGetD kvs "maintainer" .null).truthy ||
          (objGetD kvs "maintainer_email" .null).truthy)),
       ("has_temporal_coverage", .bool ((objGetD kvs "temporal_coverage_from" .null).truthy ||
          (objGetD kvs "temporal_coverage_to" .null).truthy)),
       ("has_spatial_coverage", .bool (objGetD kvs "spatial" .null).truthy)],
      ?_, hb.1, hb.2⟩
    unfold schemaCompliancePart
    rw [if_pos h]
  · left
    unfold schemaCompliancePart
    rw [if_neg h]

/-- Shape and score bound of the format-validation branch. -/
theorem formatValidationPart_shape (kvs : List (String × Json)) (checks : List String)
    (fc : List (String × Json)) (fs : List ℚ)
    (h : formatValidationPart kvs checks = .ok (fc, fs)) :
    (fc = [] ∧ fs = []) ∨
    ∃ s detail, fc = [("format_validation", .obj (("score", .num s) :: detail))] ∧
      fs = [s] ∧ 0 ≤ s ∧ s ≤ 100 := by
  by_cases hin : checks.contains "format_validation"
  · right
    simp only [formatValidationPart, hin, if_true, bind, Except.bind, pure, Except.pure] at h
    cases hI : pyIter (objGetD kvs "resources" (.arr [])) <;> simp only [hI] at h
    · exact Except.noConfusion h
    · rename_i rs
      cases hM : mapExcept resourceFormatScore rs <;> simp only [hM] at h
      · exact Except.noConfusion h
      · rename_i fscores
        cases hL : pyLen (objGetD kvs "resources" (.arr [])) <;> simp only [hL] at h
        · exact Except.noConfusion h
        · injection h with h'
          have hbound : ∀ x ∈ fscores, 0 ≤ x ∧ x ≤ 100 :=
            mapExcept_mem resourceFormatScore rs fscores hM _
              (fun a b hab => resourceFormatScore_bounds a b hab)
          have hmean := listMean_bounds fscores hbound
          injection h' with hfc hfs
          exact ⟨_, _, hfc.symm, hfs.symm, hmean.1, hmean.2⟩
  · left
    simp only [formatValidationPart, hin, if_false, Bool.false_eq_true, pure,
      Except.pure] at h
    injection h with h'
    injection h' with hfc hfs
    exact ⟨hfc.symm, hfs.symm⟩

/-- `checksScore` on an empty entry list finds nothing. -/
theorem checksScore_nil (n : String) : checksScore [] n = none := by
  simp [checksScore, List.lookup]

/-- `checksScore` on a singleton check entry whose detail dict starts with
its score. -/
theorem checksScore_singleton (name : String) (s : ℚ) (detail : List (String × Json))
    (n : String) :
    checksScore [(name, .obj (("score", .num s) :: detail))] n =
      if n = name then some s else none := by
  by_cases h : n = name <;> simp [checksScore, lookup_singleton, lookup_cons, h]

/-- Scores found across an append are found in one of the parts. -/
theorem checksScore_append (l₁ l₂ : List (String × Json)) (n : String) (q : ℚ)
    (h : checksScore (l₁ ++ l₂) n = some q) :
    checksScore l₁ n = some q ∨ checksScore l₂ n = some q := by
  unfold checksScore at *
  rw [lookup_append] at h
  cases hl : l₁.lookup n with
  | none => right; simpa [hl] using h
  | some j => left; simpa [hl] using h

/-- The completeness branch produces nothing when not requested. -/
theorem completenessPart_skip (kvs : List (String × Json)) (checks : List String)
    (h : checks.contains "completeness" = false) :
    completenessPart kvs checks = ([], []) := by
  unfold completenessPart
  rw [if_neg (by simp only [h]; exact Bool.false_ne_true)]

/-- The schema-compliance branch produces nothing when not requested. -/
theorem schemaCompliancePart_skip (kvs : List (String × Json)) (checks : List String)
    (h : checks.contains "schema_compliance" = false) :
    schemaCompliancePart kvs checks = ([], []) := by
  unfold schemaCompliancePart
  rw [if_neg (by simp only [h]; exact Bool.false_ne_true)]

/-- The format-validation branch produces nothing when not requested. -/
theorem formatValidationPart_skip (kvs : List (String × Json)) (checks : List String)
    (h : checks.contains "format_validation" = false) :
    formatValidationPart kvs checks = .ok ([], []) := by
  unfold formatValidationPart
  rw [if_neg (by simp only [h]; exact Bool.false_ne_true)]
  rfl

/-- C10.  Every produced quality report has every individual check score
and the overall score inside `[0, 100]`, and the overall score is 0 when
no recognized check was requested. -/
theorem C10_quality_scores_in_range (dataset : Json) (dsid ts : String)
    (checksArg : Option (List String)) (r : QualityReport)
    (hok : checkDataQuality dataset dsid checksArg ts = .ok r) :
    (∀ n q, r.checkScore n = some q → 0 ≤ q ∧ q ≤ 100) ∧
    (0 ≤ r.overall_score ∧ r.overall_score ≤ 100) ∧
    ((checksArg.getD default_checks).contains "completeness" = false →
      (checksArg.getD default_checks).contains "format_validation" = false →
      (checksArg.getD default_checks).contains "schema_compliance" = false →
      r.overall_score = 0) := by
  simp only [checkDataQuality, bind, Except.bind, pure, Except.pure] at hok
  cases hobj : asObj dataset <;> simp only [hobj] at hok
  · exact Except.noConfusion hok
  rename_i dkvs
  cases hcp : completenessPart dkvs (checksArg.getD default_checks) with
  | mk cch csc =>
  cases hsp : schemaCompliancePart dkvs (checksArg.getD default_checks) with
  | mk sch ssc =>
  cases hf : formatValidationPart dkvs (checksArg.getD default_checks) <;>
    simp only [hf, hcp, hsp] at hok
  · exact Except.noConfusion hok
  rename_i fpair
  obtain ⟨fc, fs⟩ := fpair
  injection hok with hok'
  subst hok'
  have hcsh := completenessPart_shape dkvs (checksArg.getD default_checks)
  have hssh := schemaCompliancePart_shape dkvs (checksArg.getD default_checks)
  have hfsh := formatValidationPart_shape dkvs (checksArg.getD default_checks) fc fs hf
  rw [hcp] at hcsh
  rw [hsp] at hssh
  have hcsh' : (cch = [] ∧ csc = []) ∨
      ∃ s detail, cch = [("completeness", .obj (("score", .num s) :: detail))] ∧
        csc = [s] ∧ 0 ≤ s ∧ s ≤ 100 := by
    rcases hcsh with h | ⟨s, det, hpair, h0, h1⟩
    · left
      exact ⟨congrArg Prod.fst h, congrArg Prod.snd h⟩
    · right
      exact ⟨s, det, congrArg Prod.fst hpair, congrArg Prod.snd hpair, h0, h1⟩
  have hssh' : (sch = [] ∧ ssc = []) ∨
      ∃ s detail, sch = [("schema_compliance", .obj (("score", .num s) :: detail))] ∧
        ssc = [s] ∧ 0 ≤ s ∧ s ≤ 100 := by
    rcases hssh with h | ⟨s, det, hpair, h0, h1⟩
    · left
      exact ⟨congrArg Prod.fst h, congrArg Prod.snd h⟩
    · right
      exact ⟨s, det, congrArg Prod.fst hpair, congrArg Prod.snd hpair, h0, h1⟩
  refine ⟨?_, ?_, ?_⟩
  · -- every recorded check score is bounded
    intro n q hq
    simp only [QualityReport.checkScore] at hq
    rcases checksScore_append _ _ _ _ hq with hq1 | hq2
    · rcases checksScore_append _ _ _ _ hq1 with hqc | hqf
      · rcases hcsh' with ⟨hc, -⟩ | ⟨s, det, hc, -, h0, h1⟩
        · rw [hc, checksScore_nil] at hqc
          exact Option.noConfusion hqc
        · rw [hc, checksScore_singleton] at hqc
          split at hqc
          · injection hqc with hqc'
            subst hqc'
            exact ⟨h0, h1⟩
          · exact Option.noConfusion hqc
      · rcases hfsh with ⟨hcf, -⟩ | ⟨s, det, hcf, -, h0, h1⟩
        · rw [hcf, checksScore_nil] at hqf
          exact Option.noConfusion hqf
        · rw [hcf, checksScore_singleton] at hqf
          split at hqf
          · injection hqf with hqf'
            subst hqf'
            exact ⟨h0, h1⟩
          · exact Option.noConfusion hqf
    · rcases hssh' with ⟨hs, -⟩ | ⟨s, det, hs, -, h0, h1⟩
      · rw [hs, checksScore_nil] at hq2
        exact Option.noConfusion hq2
      · rw [hs, checksScore_singleton] at hq2
        split at hq2
        · injection hq2 with hq2'
          subst hq2'
          exact ⟨h0, h1⟩
        · exact Option.noConfusion hq2
  · -- the overall score is a mean of bounded scores
    apply listMean_bounds
    intro x hx
    rcases List.mem_append.mp hx with hx1 | hxs
    · rcases List.mem_append.mp hx1 with hxc | hxf
      · rcases hcsh' with ⟨-, hc⟩ | ⟨s, det, -, hc, h0, h1⟩ <;> rw [hc] at hxc
        · cases hxc
        · rcases List.mem_singleton.mp hxc with rfl
          exact ⟨h0, h1⟩
      · rcases hfsh with ⟨-, hcf⟩ | ⟨s, det, -, hcf, h0, h1⟩ <;> rw [hcf] at hxf
        · cases hxf
        · rcases List.mem_singleton.mp hxf with rfl
          exact ⟨h0, h1⟩
    · rcases hssh' with ⟨-, hs⟩ | ⟨s, det, -, hs, h0, h1⟩ <;> rw [hs] at hxs
      · cases hxs
      · rcases List.mem_singleton.mp hxs with rfl
        exact ⟨h0, h1⟩
  · -- nothing recognized requested: empty score list, overall 0
    intro h1 h2 h3
    have hc := completenessPart_skip dkvs _ h1
    have hs := schemaCompliancePart_skip dkvs _ h3
    have hff := formatValidationPart_skip dkvs _ h2
    rw [hcp] at hc
    rw [hsp] at hs
    rw [hf] at hff
    injection hff with hff'
    have hfs : fs = [] := congrArg Prod.snd hff'
    have hcs : csc = [] := congrArg Prod.snd hc
    have hss : ssc = [] := congrArg Prod.snd hs
    simp [hfs, hcs, hss]

/-- Witness for C10 at a concrete dataset and check list. -/
theorem C10_quality_scores_in_range_witness :
    (0 : ℚ) ≤ (QualityReport.mk "d" .null "ts" [] 0).overall_score ∧
    (QualityReport.mk "d" .null "ts" [] 0).overall_score ≤ 100 :=
  (C10_quality_scores_in_range (.obj []) "d" "ts" (some [])
    (QualityReport.mk "d" .null "ts" [] 0) (by decide)).2.1

/-!
## C9: cache-key determinism and collision-freeness
-/

theorem sortJsonKVs_eq_map (l : List (String × Json)) :
    sortJsonKVs l = l.map fun p => (p.1, sortJson p.2) := by
  induction l with
  | nil => rfl
  | cons p t ih =>
    cases p
    simp [sortJsonKVs, ih]

instance : IsTotal (String × Json) keyLE := ⟨fun a b => le_total a.1 b.1⟩

instance : IsTrans (String × Json) keyLE := ⟨fun _ _ _ h₁ h₂ => le_trans h₁ h₂⟩

/-- Strict ordering of dict items by key. -/
def keyLT (p q : String × Json) : Prop := p.1 < q.1

instance : IsAntisymm (String × Json) keyLT :=
  ⟨fun _ _ h₁ h₂ => absurd h₂ (lt_asymm h₁)⟩

theorem sortKVs_perm (l : List (String × Json)) : (sortKVs l).Perm l :=
  List.perm_insertionSort keyLE l

theorem sortKVs_sorted (l : List (String × Json)) : List.Sorted keyLE (sortKVs l) :=
  List.sorted_insertionSort keyLE l

/-- On duplicate-free key lists — the only lists Python dicts produce —
sorting by key is invariant under permutation of the items. -/
theorem sortKVs_eq_of_perm (l₁ l₂ : List (String × Json)) (hperm : l₁.Perm l₂)
    (hnd : (l₁.map Prod.fst).Nodup) : sortKVs l₁ = sortKVs l₂ := by
  have hp : (sortKVs l₁).Perm (sortKVs l₂) :=
    (sortKVs_perm l₁).trans (hperm.trans (sortKVs_perm l₂).symm)
  have hnd₁ : ((sortKVs l₁).map Prod.fst).Nodup :=
    (((sortKVs_perm l₁).map Prod.fst).nodup_iff).mpr hnd
  have hnd₂ : ((sortKVs l₂).map Prod.fst).Nodup :=
    (((sortKVs_perm l₂).map Prod.fst).nodup_iff).mpr ((hperm.map Prod.fst).nodup_iff.mp hnd)
  have hs₁ : List.Pairwise keyLT (sortKVs l₁) := by
    have hne := List.pairwise_map.mp hnd₁
    exact ((sortKVs_sorted l₁).and hne).imp fun h => lt_of_le_of_ne h.1 h.2
  have hs₂ : List.Pairwise keyLT (sortKVs l₂) := by
    have hne := List.pairwise_map.mp hnd₂
    exact ((sortKVs_sorted l₂).and hne).imp fun h => lt_of_le_of_ne h.1 h.2
  exact List.eq_of_perm_of_sorted hp hs₁ hs₂

/-- `sort_keys=True` serialization does not see the order of a dict's
items. -/
theorem sortJson_obj_perm (l₁ l₂ : List (String × Json)) (hperm : l₁.Perm l₂)
    (hnd : (l₁.map Prod.fst).Nodup) : sortJson (.obj l₁) = sortJson (.obj l₂) := by
  simp only [sortJson, sortJsonKVs_eq_map]
  congr 1
  apply sortKVs_eq_of_perm
  · exact hperm.map _
  · have hkeys : (l₁.map fun p => (p.1, sortJson p.2)).map Prod.fst = l₁.map Prod.fst := by
      simp [List.map_map, Function.comp]
    rw [hkeys]
    exact hnd

/-- Determinism of the cache key, with body dicts equal as maps (same
items in any order) counting as identical. -/
theorem getCacheKey_obj_perm (method endpoint : String) (l₁ l₂ : List (String × Json))
    (hperm : l₁.Perm l₂) (hnd : (l₁.map Prod.fst).Nodup) :
    getCacheKey method endpoint (.obj l₁) = getCacheKey method endpoint (.obj l₂) := by
  unfold getCacheKey cacheDataString
  cases l₁ with
  | nil =>
    have h₂ : l₂ = [] := hperm.symm.eq_nil
    subst h₂
    rfl
  | cons p t =>
    have h₂ : l₂ ≠ [] := by
      intro h
      subst h
      exact absurd hperm.length_eq (by simp)
    have htr₁ : Json.truthy (.obj (p :: t)) = true := by simp [Json.truthy]
    have htr₂ : Json.truthy (.obj l₂) = true := by
      cases l₂ with
      | nil => exact absurd rfl h₂
      | cons q u => simp [Json.truthy]
    rw [htr₁, htr₂, if_pos rfl, if_pos rfl]
    unfold jsonDumpsSorted
    rw [sortJson_obj_perm (p :: t) l₂ hperm hnd]

/-- Joining two lists around a separator absent from the first parts is
injective. -/
theorem sep_append_inj {α : Type} (a : α) :
    ∀ (l₁ l₁' r r' : List α), a ∉ l₁ → a ∉ l₁' →
      l₁ ++ a :: r = l₁' ++ a :: r' → l₁ = l₁' ∧ r = r' := by
  intro l₁
  induction l₁ with
  | nil =>
    intro l₁' r r' h1 h1' heq
    cases l₁' with
    | nil => simpa using heq
    | cons b t =>
      simp only [List.nil_append, List.cons_append, List.cons.injEq] at heq
      exact absurd (heq.1 ▸ List.mem_cons_self b t) h1'
  | cons b t ih =>
    intro l₁' r r' h1 h1' heq
    cases l₁' with
    | nil =>
      simp only [List.nil_append, List.cons_append, List.cons.injEq] at heq
      exact absurd (heq.1 ▸ List.mem_cons_self b t) h1
    | cons c u =>
      simp only [List.cons_append, List.cons.injEq] at heq
      obtain ⟨rfl, heq'⟩ := heq
      have ht : a ∉ t := fun hm => h1 (List.mem_cons_of_mem b hm)
      have hu : a ∉ u := fun hm => h1' (List.mem_cons_of_mem b hm)
      obtain ⟨rfl, hr⟩ := ih u r r' ht hu heq'
      exact ⟨rfl, hr⟩

/-- Injectivity of the fingerprint string for the requests the client
actually caches: cached calls are GETs issued with no body
(`data = None`), and HTTP method names contain no `:`. -/
theorem cacheDataString_null_inj (m₁ e₁ m₂ e₂ : String)
    (hm₁ : (':' : Char) ∉ m₁.data) (hm₂ : (':' : Char) ∉ m₂.data)
    (heq : cacheDataString m₁ e₁ .null = cacheDataString m₂ e₂ .null) :
    m₁ = m₂ ∧ e₁ = e₂ := by
  have hd : m₁.data ++ ':' :: (e₁.data ++ [':']) = m₂.data ++ ':' :: (e₂.data ++ [':']) := by
    have h' := congrArg String.data heq
    simpa [cacheDataString, Json.truthy, String.data_append, List.append_assoc] using h'
  obtain ⟨h1, h2⟩ := sep_append_inj ':' m₁.data m₂.data _ _ hm₁ hm₂ hd
  exact ⟨congrArg String.mk h1, congrArg String.mk (List.append_cancel_right h2)⟩

/-- C9.  The cache key is `md5` of the fingerprint string
`f"{method}:{endpoint}:{json.dumps(body, sort_keys=True) if body else ''}"`.
(i) Determinism: identical `(method, endpoint, body)` tuples give the same
key; in particular body dicts that are equal as maps (same duplicate-free
item set, any order) fingerprint — and therefore hash — identically,
because `sort_keys=True` sorts them to one spelling.
(ii) Collision-freeness, settled at the fingerprint level for the inputs
the program feeds the key ("reasonable inputs"): every cached request is a
GET with `data=None`, and HTTP method names contain no colon, under which
distinct `(method, endpoint)` pairs produce distinct fingerprint strings.
(Distinct fingerprints then collide only if md5 itself collides, which the
claim's "reasonable inputs" hedge puts out of scope.) -/
theorem C9_cache_key_deterministic_and_collision_free :
    (∀ (method endpoint : String) (l₁ l₂ : List (String × Json)), l₁.Perm l₂ →
      (l₁.map Prod.fst).Nodup →
      getCacheKey method endpoint (.obj l₁) = getCacheKey method endpoint (.obj l₂)) ∧
    (∀ m₁ e₁ m₂ e₂ : String, (':' : Char) ∉ m₁.data → (':' : Char) ∉ m₂.data →
      cacheDataString m₁ e₁ .null = cacheDataString m₂ e₂ .null →
      m₁ = m₂ ∧ e₁ = e₂) :=
  ⟨getCacheKey_obj_perm, cacheDataString_null_inj⟩

/-- Witness for C9: a reordered two-key body hashes identically, and the
fingerprint of a concrete GET determines its method and endpoint. -/
theorem C9_cache_key_witness :
    getCacheKey "GET" "package_list" (.obj [("a", .null), ("b", .bool true)]) =
      getCacheKey "GET" "package_list" (.obj [("b", .bool true), ("a", .null)]) ∧
    (("GET" : String) = "GET" ∧ ("package_list" : String) = "package_list") := by
  constructor
  · exact C9_cache_key_deterministic_and_collision_free.1 "GET" "package_list"
      [("a", .null), ("b", .bool true)] [("b", .bool true), ("a", .null)]
      (by decide) (by decide)
  · exact C9_cache_key_deterministic_and_collision_free.2 "GET" "package_list"
      "GET" "package_list" (by decide) (by decide) rfl

end Ckan
